import Mathlib

/-!
Verification development for the mcp-cv-backend repository.

The repository ships two source files, `src/index.js` (the stdio MCP server
plus a small serverless Express app) and `src/web-server.js` (the REST
adapter).  Both depend on three modules that are not part of the shipped
sources: `cv-parser.js` (the document model), `email-service.js` (the
notification channel) and `mcp-tools.js` (the tool registry and dispatcher).
Those three are modelled from the specification; everything else is a direct
shallow embedding of the JavaScript in `src/`.

JavaScript values that matter to the claims are embedded as follows:
JSON-style objects become `JValue`; a thrown exception / rejected promise is
an `ExecOutcome.exn` or an `Except.error`; `undefined`-vs-present fields
become `Option`; JavaScript string truthiness (`!s` is true for `""`,
`null` and `undefined`) becomes `jsTruthy`.
-/

/-- A JSON-like value, the shape of every payload the adapters serialize. -/
inductive JValue where
  | null
  | bool (b : Bool)
  | str (s : String)
  | arr (xs : List JValue)
  | obj (fields : List (String × JValue))
deriving Repr

/-- The dispatcher result envelope `{success, data?, summary?, error?, tool?, timestamp?}`.
Absent JavaScript fields are `none`. -/
structure ToolResult where
  success : Bool
  data : Option JValue := none
  summary : Option String := none
  error : Option String := none
  tool : Option String := none
  timestamp : Option String := none
deriving Repr

/-- JavaScript truthiness of an optional string: `none` (absent/undefined)
and `some ""` are falsy, every non-empty string is truthy. -/
def jsTruthy : Option String → Bool
  | none => false
  | some s => !(s == "")

/-- Encode a `ToolResult` back into the JSON object the adapters send,
keeping only the fields that are present. -/
def encodeToolResult (r : ToolResult) : JValue :=
  .obj ([("success", JValue.bool r.success)]
    ++ (match r.data with | some d => [("data", d)] | none => [])
    ++ (match r.summary with | some s => [("summary", JValue.str s)] | none => [])
    ++ (match r.error with | some e => [("error", JValue.str e)] | none => [])
    ++ (match r.tool with | some t => [("tool", JValue.str t)] | none => [])
    ++ (match r.timestamp with | some t => [("timestamp", JValue.str t)] | none => []))

/-- Modelled from the spec: the structured record produced by the missing
document model `cv-parser.js` (spec section 3, CVRecord): personal mapping,
experience / education / skills sequences and the raw full text. -/
structure CVRecord where
  personal : List (String × String)
  experience : List String
  education : List String
  skills : List String
  rawText : String
deriving Repr, DecidableEq

/-- The explicit empty-but-well-typed fallback record built inline by both
`MCPCVServer.initialize` (src/index.js lines 78-87) and
`WebServer.initialize` (src/web-server.js lines 298-307). -/
def emptyCVRecord : CVRecord :=
  { personal := [], experience := [], education := [], skills := [], rawText := "" }

/-- Modelled from the spec: the missing notification channel
`email-service.js`.  `isConfigured` is the flag read by the side-effecting
tool; `deliverResult` is the outcome the channel would produce for a
delivery attempt (receipt text on success, error text on failure). -/
structure EmailService where
  isConfigured : Bool
  deliverResult : Except String String
deriving Repr

/-- Outcome of the asynchronous connectivity probe `testConnection()` when
it resolves (spec: NotificationChannelStatus.lastProbe). -/
structure ProbeStatus where
  success : Bool
  error : Option String := none
deriving Repr, DecidableEq

/-- Modelled from the spec: the missing dispatcher `mcp-tools.js`.  It is
constructed from a CVRecord and the channel reference; the channel slot is
an `Option` because the JavaScript callers can pass `null` there. -/
structure MCPTools where
  cvData : CVRecord
  emailService : Option EmailService
deriving Repr

/-- Modelled from the spec: a tool definition row of the static registry
(spec section 3, ToolDefinition). -/
structure ToolDefinition where
  name : String
  description : String
  required : List String
deriving Repr, DecidableEq

/-- Modelled from the spec: the static tool registry returned by
`getToolDefinitions()` (spec section 6 tool catalog). -/
def toolDefinitions : List ToolDefinition :=
  [ { name := "get_personal_info", description := "Get personal information", required := [] },
    { name := "get_work_experience", description := "Get work experience", required := [] },
    { name := "get_education", description := "Get education details", required := [] },
    { name := "get_skills", description := "Get skills list", required := [] },
    { name := "search_cv", description := "Search CV content", required := ["query"] },
    { name := "send_email", description := "Send email notification", required := ["recipient", "subject", "body"] } ]

/-- The registered tool names, in registry order. -/
def registeredToolNames : List String := toolDefinitions.map ToolDefinition.name

/-- Look up a named argument in the argument mapping. -/
def lookupArg (args : List (String × String)) (k : String) : Option String :=
  match args with
  | [] => none
  | (k0, v) :: t => if k0 = k then some v else lookupArg t k

/-- Character-list prefix test, written out to keep everything elementary. -/
def charsStartWith : List Char → List Char → Bool
  | _, [] => true
  | [], _ :: _ => false
  | a :: as, b :: bs => a == b && charsStartWith as bs

/-- Character-list substring test: does the needle occur inside the hay? -/
def charsHaveSub : List Char → List Char → Bool
  | [], needle => needle.isEmpty
  | h :: t, needle => charsStartWith (h :: t) needle || charsHaveSub t needle

/-- Whitespace trimming on character lists, structurally recursive. -/
def trimChars (cs : List Char) : List Char :=
  ((cs.dropWhile Char.isWhitespace).reverse.dropWhile Char.isWhitespace).reverse

/-- The trim operation the search tool applies to its query. -/
def jsTrim (s : String) : String := String.mk (trimChars s.data)

/-- Case-insensitive substring occurrence test used by the search tool. -/
def containsCI (hay q : String) : Bool :=
  charsHaveSub (hay.data.map Char.toLower) (q.data.map Char.toLower)

/-- Modelled from the spec: the `search_cv` tool of the missing
`mcp-tools.js` (spec section 4.1, behavioural class 2): trim the query,
reject an empty trimmed query as InvalidArguments, otherwise collect the
case-insensitive matches across personal info, experience, education,
skills and raw text as fragments tagged with their source section. -/
def searchCV (cv : CVRecord) (q : String) : ToolResult :=
  let t := jsTrim q
  if t == "" then
    { success := false, error := some "Search query cannot be empty" }
  else
    let frags :=
      (cv.personal.filter (fun p => containsCI p.2 t)).map
        (fun p => JValue.obj [("section", .str "personal"), ("field", .str p.1), ("match", .str p.2)])
      ++ (cv.experience.filter (fun e => containsCI e t)).map
        (fun e => JValue.obj [("section", .str "experience"), ("match", .str e)])
      ++ (cv.education.filter (fun e => containsCI e t)).map
        (fun e => JValue.obj [("section", .str "education"), ("match", .str e)])
      ++ (cv.skills.filter (fun s => containsCI s t)).map
        (fun s => JValue.obj [("section", .str "skills"), ("match", .str s)])
      ++ (if containsCI cv.rawText t then
            [JValue.obj [("section", .str "rawText"), ("match", .str cv.rawText)]]
          else [])
    { success := true, data := some (.arr frags) }

/-- Modelled from the spec: `MCPTools.executeTool(name, args)` of the
missing `mcp-tools.js` (spec sections 4.1 and 7).  The dispatcher matches
the name case-sensitively, validates required parameters before any side
effect, never throws, and returns every outcome as a ToolResult.  The
second component counts the delivery attempts the channel observes during
the call, so that the no-side-effect properties are statable. -/
def MCPTools.executeTool (t : MCPTools) (name : String) (args : List (String × String)) :
    ToolResult × Nat :=
  if name = "get_personal_info" then
    ({ success := true, data := some (.obj (t.cvData.personal.map (fun p => (p.1, JValue.str p.2)))) }, 0)
  else if name = "get_work_experience" then
    ({ success := true, data := some (.arr (t.cvData.experience.map JValue.str)) }, 0)
  else if name = "get_education" then
    ({ success := true, data := some (.arr (t.cvData.education.map JValue.str)) }, 0)
  else if name = "get_skills" then
    ({ success := true, data := some (.arr (t.cvData.skills.map JValue.str)) }, 0)
  else if name = "search_cv" then
    match lookupArg args "query" with
    | none => ({ success := false, error := some "Missing required parameter: query" }, 0)
    | some q => (searchCV t.cvData q, 0)
  else if name = "send_email" then
    if lookupArg args "recipient" = none ∨ lookupArg args "subject" = none ∨
        lookupArg args "body" = none then
      ({ success := false,
         error := some "Missing required parameters: recipient, subject and body are required" }, 0)
    else
      match t.emailService with
      | none => ({ success := false, error := some "Email service is not available" }, 0)
      | some ch =>
        if !ch.isConfigured then
          ({ success := false, error := some "Email service is not configured" }, 0)
        else
          match ch.deliverResult with
          | .ok receipt => ({ success := true, data := some (.str receipt) }, 1)
          | .error e => ({ success := false, error := some ("Failed to send email: " ++ e) }, 1)
  else
    ({ success := false, error := some ("Unknown tool: " ++ name) }, 0)

/-- The outcome of awaiting `this.mcpTools.executeTool(name, args)` inside a
try block: either a returned ToolResult or a thrown error message. -/
inductive ExecOutcome where
  | ok (r : ToolResult)
  | exn (msg : String)
deriving Repr

/-- The mutable fields of the `MCPCVServer` class of src/index.js that the
claims read: `isInitialized`, `mcpTools` and `emailService` (all start as
`false` / `null` in the constructor, lines 41-44). -/
structure MCPServerState where
  isInitialized : Bool
  mcpTools : Option MCPTools
  emailService : Option EmailService

/-- The state a fresh `new MCPCVServer()` has (src/index.js lines 41-44). -/
def freshMCPServerState : MCPServerState :=
  { isInitialized := false, mcpTools := none, emailService := none }

/-- The environment one run of the init lifecycle executes against: the
outcome of `new EmailService()`, of `cvParser.parseCV()` (a constructor
throw of `CVParser` is folded into a parse error, both land in the same
catch), and of `emailService.testConnection()` (`.ok` when the promise
resolves, `.error` when it rejects). -/
structure InitEnv where
  channelCtor : Except String EmailService
  parseResult : Except String CVRecord
  probeResult : Except String ProbeStatus

/-- Shallow embedding of `MCPCVServer.initialize()` (src/index.js lines
49-92).  The try block runs steps in order; any throw jumps to the catch
block, which installs the fallback record, passes the current
`this.emailService` field as the channel, sets `isInitialized = true` and
returns `false`.  Note that when `new EmailService()` itself throws, the
`this.emailService` field was never assigned and keeps its prior value. -/
def MCPCVServer.initServer (st : MCPServerState) (env : InitEnv) : MCPServerState × Bool :=
  match env.channelCtor with
  | .error _ =>
    ({ st with
        mcpTools := some { cvData := emptyCVRecord, emailService := st.emailService },
        isInitialized := true }, false)
  | .ok ch =>
    match env.parseResult with
    | .error _ =>
      ({ st with
          emailService := some ch,
          mcpTools := some { cvData := emptyCVRecord, emailService := some ch },
          isInitialized := true }, false)
    | .ok cv =>
      match env.probeResult with
      | .error _ =>
        -- testConnection rejected: mcpTools had already been assigned the
        -- parsed record, but the catch block overwrites it with the fallback.
        ({ st with
            emailService := some ch,
            mcpTools := some { cvData := emptyCVRecord, emailService := some ch },
            isInitialized := true }, false)
      | .ok _ =>
        ({ st with
            emailService := some ch,
            mcpTools := some { cvData := cv, emailService := some ch },
            isInitialized := true }, true)

/-- Shallow embedding of `MCPCVServer.executeTool(toolName, args)`
(src/index.js lines 221-241): the direct dispatch entry point used by the
API endpoints.  The dispatcher call is represented by its awaited outcome
so that the wrapper is specified for every possible behaviour of the tool,
a thrown exception included. -/
def MCPCVServer.executeTool (st : MCPServerState) (toolName : String)
    (outcome : ExecOutcome) (now : String) : ToolResult :=
  if !st.isInitialized || st.mcpTools.isNone then
    { success := false, error := some "Server not properly initialized", timestamp := some now }
  else
    match outcome with
    | .ok r => r
    | .exn msg =>
      { success := false, error := some msg, tool := some toolName, timestamp := some now }

/-- The mutable fields of the `WebServer` class of src/web-server.js that
the claims read: `mcpTools` and `isInitialized` (lines 16-17). -/
structure WebServerState where
  mcpTools : Option MCPTools
  isInitialized : Bool

/-- The state a fresh `new WebServer()` has (src/web-server.js lines 16-17). -/
def freshWebServerState : WebServerState :=
  { mcpTools := none, isInitialized := false }

/-- The environment one run of `WebServer.initialize()` executes against.
`fallbackChannel` is the `new EmailService()` the catch block constructs
for the fallback dispatcher (src/web-server.js line 306); it is modelled as
succeeding (were it to throw, no dispatcher would be constructed at all). -/
structure WebInitEnv where
  channelCtor : Except String EmailService
  parseResult : Except String CVRecord
  probeResult : Except String ProbeStatus
  fallbackChannel : EmailService

/-- Shallow embedding of `WebServer.initialize()` (src/web-server.js lines
266-313).  Same shape as the stdio server version, except that the channel
is a local variable and the catch block constructs a fresh `EmailService`
for the fallback dispatcher. -/
def WebServer.initServer (st : WebServerState) (env : WebInitEnv) : WebServerState × Bool :=
  match env.channelCtor with
  | .error _ =>
    ({ st with
        mcpTools := some { cvData := emptyCVRecord, emailService := some env.fallbackChannel },
        isInitialized := true }, false)
  | .ok ch =>
    match env.parseResult with
    | .error _ =>
      ({ st with
          mcpTools := some { cvData := emptyCVRecord, emailService := some env.fallbackChannel },
          isInitialized := true }, false)
    | .ok cv =>
      match env.probeResult with
      | .error _ =>
        ({ st with
            mcpTools := some { cvData := emptyCVRecord, emailService := some env.fallbackChannel },
            isInitialized := true }, false)
      | .ok _ =>
        ({ st with
            mcpTools := some { cvData := cv, emailService := some ch },
            isInitialized := true }, true)

/-- An HTTP response: status code plus JSON body. -/
structure HttpResponse where
  status : Nat
  body : JValue
deriving Repr

/-- Shallow embedding of the POST /api/mcp handler (src/web-server.js lines
115-180).  The dispatcher call is represented by its awaited outcome; a
thrown error lands in the catch block (500).  The three result branches
mirror lines 142-168: success with defined data, truthy error field, and
the fallback that wraps the whole raw result. -/
def apiMcpHandler (isInitialized : Bool) (toolsPresent : Bool) (toolField : Option String)
    (outcome : ExecOutcome) (now : String) : HttpResponse :=
  if !(jsTruthy toolField) then
    { status := 400, body := .obj [("error", .str "Tool name is required"), ("timestamp", .str now)] }
  else
    let tool := toolField.getD ""
    if !isInitialized || !toolsPresent then
      { status := 503,
        body := .obj [("error", .str "Server not properly initialized"), ("timestamp", .str now)] }
    else
      match outcome with
      | .exn msg =>
        { status := 500,
          body := .obj [("error", .str msg), ("tool", .str tool), ("timestamp", .str now)] }
      | .ok r =>
        if r.success && r.data.isSome then
          { status := 200,
            body := .obj [("success", .bool true), ("data", r.data.getD .null),
              ("summary", .str (r.summary.getD (tool ++ " executed successfully"))),
              ("tool", .str tool), ("timestamp", .str now)] }
        else if jsTruthy r.error then
          { status := 400,
            body := .obj [("error", .str (r.error.getD "")), ("tool", .str tool),
              ("timestamp", .str now)] }
        else
          { status := 200,
            body := .obj [("success", .bool true), ("data", encodeToolResult r),
              ("tool", .str tool), ("timestamp", .str now)] }

/-- Shallow embedding of the POST /api/tools/:toolName handler
(src/web-server.js lines 90-112): 503 before the dispatcher exists, 500 on
a thrown error, and otherwise the dispatcher result passed through as the
body with status 200 regardless of its success flag. -/
def apiToolsNameHandler (isInitialized : Bool) (toolsPresent : Bool) (toolName : String)
    (outcome : ExecOutcome) (now : String) : HttpResponse :=
  if !isInitialized || !toolsPresent then
    { status := 503,
      body := .obj [("error", .str "Server not properly initialized"), ("timestamp", .str now)] }
  else
    match outcome with
    | .exn msg =>
      { status := 500,
        body := .obj [("error", .str msg), ("tool", .str toolName), ("timestamp", .str now)] }
    | .ok r => { status := 200, body := encodeToolResult r }

/-- Shallow embedding of the GET /api/tools handler (src/web-server.js
lines 73-87): 503 before the dispatcher exists, otherwise the registry. -/
def apiToolsListHandler (isInitialized : Bool) (toolsPresent : Bool) (now : String) : HttpResponse :=
  if !isInitialized || !toolsPresent then
    { status := 503,
      body := .obj [("error", .str "Server not properly initialized"), ("timestamp", .str now)] }
  else
    { status := 200,
      body := .obj [("success", .bool true),
        ("tools", .arr (toolDefinitions.map (fun d => JValue.str d.name))),
        ("count", .str (toString toolDefinitions.length))] }

/-- Shallow embedding of the catch-all route (src/web-server.js lines
256-263): every unmatched path gets a 404 body. -/
def catchAllHandler (originalUrl now : String) : HttpResponse :=
  { status := 404,
    body := .obj [("error", .str "Route not found"), ("path", .str originalUrl),
      ("timestamp", .str now)] }

/-- Stand-in for the TypeError message raised when a route handler calls
`executeTool` on a null `this.mcpTools`. -/
def nullDerefMsg : String := "Cannot read properties of null reading executeTool"

/-- Shallow embedding of the four GET convenience handlers /api/personal,
/api/experience, /api/education and /api/skills (src/web-server.js lines
183-217).  They are not gated on initialization: with a null dispatcher the
`executeTool` property access throws inside the try block and the catch
answers 500; otherwise the dispatcher result is passed through with 200. -/
def apiConvenienceHandler (tools : Option MCPTools) (toolName : String) : HttpResponse :=
  match tools with
  | none => { status := 500, body := .obj [("error", .str nullDerefMsg)] }
  | some t => { status := 200, body := encodeToolResult (t.executeTool toolName []).1 }

/-- Shallow embedding of the POST /api/search handler (src/web-server.js
lines 219-232): 400 when the query field is falsy, otherwise the same
ungated try/catch pattern as the convenience handlers. -/
def apiSearchHandler (tools : Option MCPTools) (reqBody : List (String × String)) : HttpResponse :=
  let query := lookupArg reqBody "query"
  if !(jsTruthy query) then
    { status := 400, body := .obj [("error", .str "Query parameter is required")] }
  else
    match tools with
    | none => { status := 500, body := .obj [("error", .str nullDerefMsg)] }
    | some t =>
      { status := 200,
        body := encodeToolResult (t.executeTool "search_cv" [("query", query.getD "")]).1 }

/-- Shallow embedding of the POST /api/email handler (src/web-server.js
lines 234-254).  Returns the response, the number of delivery attempts the
channel observed, and whether the tool was executed at all. -/
def apiEmailHandler (tools : Option MCPTools) (reqBody : List (String × String)) :
    HttpResponse × Nat × Bool :=
  let recipient := lookupArg reqBody "recipient"
  let subject := lookupArg reqBody "subject"
  let mailBody := lookupArg reqBody "body"
  if !(jsTruthy recipient) || !(jsTruthy subject) || !(jsTruthy mailBody) then
    ({ status := 400,
       body := .obj [("error",
         .str "Missing required fields: recipient, subject, and body are required")] }, 0, false)
  else
    match tools with
    | none => ({ status := 500, body := .obj [("error", .str nullDerefMsg)] }, 0, false)
    | some t =>
      let res := t.executeTool "send_email"
        [("recipient", recipient.getD ""), ("subject", subject.getD ""), ("body", mailBody.getD "")]
      ({ status := 200, body := encodeToolResult res.1 }, res.2, true)

/-- A concrete configured channel used by the concrete-instance theorems. -/
def sampleChannel : EmailService :=
  { isConfigured := true, deliverResult := .ok "delivery receipt" }

/-- A concrete parsed record used by the concrete-instance theorems
(the record of the concrete scenario in spec section 8). -/
def sampleCV : CVRecord :=
  { personal := [("name", "Ada")],
    experience := [],
    education := [],
    skills := ["Go", "Rust"],
    rawText := "Ada Lovelace ... Rust" }

/-- A concrete dispatcher instance over `sampleCV` and `sampleChannel`. -/
def sampleTools : MCPTools :=
  { cvData := sampleCV, emailService := some sampleChannel }

/-- The error message of an unknown-tool result is never the empty string,
so the /api/mcp handler sees it as truthy. -/
theorem jsTruthy_unknownMsg (name : String) :
    jsTruthy (some ("Unknown tool: " ++ name)) = true := by
  have h : ("Unknown tool: " ++ name) ≠ "" := by
    intro hc
    have hl := congrArg String.length hc
    rw [String.length_append] at hl
    have h14 : ("Unknown tool: ").length = 14 := rfl
    have h0 : ("" : String).length = 0 := rfl
    rw [h14, h0] at hl
    omega
  simp [jsTruthy, h]

/-- C1: the server-level dispatch entry point `MCPCVServer.executeTool`
never lets an exception escape: for every tool name and every outcome of
the underlying tool execution it returns a ToolResult envelope.  A thrown
exception is converted to `{success := false, error := msg}` tagged with
the tool name and a timestamp; a returned result is passed through; on an
uninitialized server the not-initialized failure envelope is returned for
either outcome. -/
theorem executeTool_always_returns_envelope :
    ∀ (t : MCPTools) (es : Option EmailService) (tools : Option MCPTools) (b : Bool)
      (name msg now : String) (res : ToolResult),
    (MCPCVServer.executeTool ⟨true, some t, es⟩ name (.exn msg) now =
      { success := false, error := some msg, tool := some name, timestamp := some now }) ∧
    (MCPCVServer.executeTool ⟨true, some t, es⟩ name (.ok res) now = res) ∧
    (MCPCVServer.executeTool ⟨false, tools, es⟩ name (.exn msg) now =
      { success := false, error := some "Server not properly initialized",
        timestamp := some now }) ∧
    (MCPCVServer.executeTool ⟨false, tools, es⟩ name (.ok res) now =
      { success := false, error := some "Server not properly initialized",
        timestamp := some now }) ∧
    (MCPCVServer.executeTool ⟨b, none, es⟩ name (.exn msg) now =
      { success := false, error := some "Server not properly initialized",
        timestamp := some now }) ∧
    (MCPCVServer.executeTool ⟨b, none, es⟩ name (.ok res) now =
      { success := false, error := some "Server not properly initialized",
        timestamp := some now }) := by
  intro t es tools b name msg now res
  refine ⟨rfl, rfl, rfl, rfl, ?_, ?_⟩ <;> cases b <;> rfl

/-- C2 counterexample: the claim says the REST adapter answers 500 for
UnknownTool, but at POST /api/mcp an unknown tool name comes back from the
dispatcher as a failed ToolResult with an error field, which the handler
maps to 400, not 500. -/
theorem apiMcp_unknownTool_is_400_not_500 :
    (apiMcpHandler true true (some "nonexistent_tool")
      (.ok (sampleTools.executeTool "nonexistent_tool" []).1) "T").status = 400 ∧
    (apiMcpHandler true true (some "nonexistent_tool")
      (.ok (sampleTools.executeTool "nonexistent_tool" []).1) "T").status ≠ 500 := by
  constructor <;> decide

/-- C2 amended: the status mapping the REST adapter actually implements.
At POST /api/mcp: 400 for a missing or empty tool name, 503 when the
server is not initialized or the dispatcher is absent, 200 for a result
with success and defined data, 400 for a result carrying a truthy error
field — which covers InvalidArguments and also UnknownTool, since the
dispatcher returns UnknownTool as a failed result rather than throwing —
500 for an uncaught exception, and 404 from the catch-all route for an
unmatched path; POST /api/tools/:toolName instead passes every dispatcher
result through with status 200. -/
theorem apiMcp_status_mapping :
    (∀ (b1 b2 : Bool) (o : ExecOutcome) (now : String),
      (apiMcpHandler b1 b2 none o now).status = 400 ∧
      (apiMcpHandler b1 b2 (some "") o now).status = 400) ∧
    (∀ (b : Bool) (n : String) (o : ExecOutcome) (now : String),
      jsTruthy (some n) = true →
      (apiMcpHandler false b (some n) o now).status = 503 ∧
      (apiMcpHandler b false (some n) o now).status = 503) ∧
    (∀ (n now : String) (r : ToolResult),
      jsTruthy (some n) = true → r.success = true → r.data.isSome = true →
      (apiMcpHandler true true (some n) (.ok r) now).status = 200) ∧
    (∀ (n now : String) (r : ToolResult),
      jsTruthy (some n) = true → (r.success && r.data.isSome) = false →
      jsTruthy r.error = true →
      (apiMcpHandler true true (some n) (.ok r) now).status = 400) ∧
    (∀ (n now : String) (t : MCPTools) (args : List (String × String)),
      jsTruthy (some n) = true → n ∉ registeredToolNames →
      (t.executeTool n args).1.success = false ∧
      (apiMcpHandler true true (some n) (.ok (t.executeTool n args).1) now).status = 400) ∧
    (∀ (n m now : String),
      jsTruthy (some n) = true →
      (apiMcpHandler true true (some n) (.exn m) now).status = 500) ∧
    (∀ (u now : String), (catchAllHandler u now).status = 404) ∧
    (∀ (n now : String) (r : ToolResult),
      (apiToolsNameHandler true true n (.ok r) now).status = 200) := by
  refine ⟨?_, ?_, ?_, ?_, ?_, ?_, ?_, ?_⟩
  · intro b1 b2 o now
    exact ⟨by simp [apiMcpHandler, jsTruthy], by simp [apiMcpHandler, jsTruthy]⟩
  · intro b n o now htn
    constructor <;> simp [apiMcpHandler, htn]
  · intro n now r htn hs hd
    simp [apiMcpHandler, htn, hs, hd]
  · intro n now r htn hf he
    simp [apiMcpHandler, htn, hf, he]
  · intro n now t args htn hnotin
    simp only [registeredToolNames, toolDefinitions, List.map, List.mem_cons,
      List.not_mem_nil, or_false, not_or] at hnotin
    obtain ⟨h1, h2, h3, h4, h5, h6⟩ := hnotin
    have hres : t.executeTool n args =
        ({ success := false, error := some ("Unknown tool: " ++ n) }, 0) := by
      simp [MCPTools.executeTool, h1, h2, h3, h4, h5, h6]
    rw [hres]
    exact ⟨rfl, by simp [apiMcpHandler, htn, jsTruthy_unknownMsg]⟩
  · intro n m now htn
    simp [apiMcpHandler, htn]
  · intro u now
    rfl
  · intro n now r
    rfl

/-- C2 witness: the amended mapping evaluated at concrete requests. -/
theorem apiMcp_status_mapping_witness :
    (apiMcpHandler true true none (.ok { success := true }) "T").status = 400 ∧
    (apiMcpHandler false true (some "get_skills") (.ok { success := true }) "T").status = 503 ∧
    (apiMcpHandler true true (some "get_skills")
      (.ok { success := true, data := some (.arr []) }) "T").status = 200 ∧
    (apiMcpHandler true true (some "send_email")
      (.ok { success := false, error := some "Missing required parameters" }) "T").status = 400 ∧
    (apiMcpHandler true true (some "bogus_tool")
      (.ok (sampleTools.executeTool "bogus_tool" []).1) "T").status = 400 ∧
    (apiMcpHandler true true (some "get_skills") (.exn "boom") "T").status = 500 ∧
    (catchAllHandler "/nope" "T").status = 404 ∧
    (apiToolsNameHandler true true "search_cv"
      (.ok { success := false, error := some "e" }) "T").status = 200 := by
  refine ⟨(apiMcp_status_mapping.1 true true (.ok { success := true }) "T").1,
    (apiMcp_status_mapping.2.1 true "get_skills" (.ok { success := true }) "T" (by decide)).1,
    apiMcp_status_mapping.2.2.1 "get_skills" "T"
      { success := true, data := some (.arr []) } (by decide) rfl rfl,
    apiMcp_status_mapping.2.2.2.1 "send_email" "T"
      { success := false, error := some "Missing required parameters" }
      (by decide) rfl (by decide),
    (apiMcp_status_mapping.2.2.2.2.1 "bogus_tool" "T" sampleTools []
      (by decide) (by decide)).2,
    apiMcp_status_mapping.2.2.2.2.2.1 "get_skills" "boom" "T" (by decide),
    apiMcp_status_mapping.2.2.2.2.2.2.1 "/nope" "T",
    apiMcp_status_mapping.2.2.2.2.2.2.2 "search_cv" "T"
      { success := false, error := some "e" }⟩

/-- C3: when initialization fails (here: the document parse step fails after
the channel was constructed), both servers still construct the dispatcher,
over the explicit empty-but-well-typed record, and still transition to
initialized; on any such fallback dispatcher the read tool
get_work_experience answers success with an empty sequence. -/
theorem initFailure_degraded_mode :
    ∀ (st : MCPServerState) (wst : WebServerState) (env : InitEnv) (wenv : WebInitEnv)
      (ch wch : EmailService) (msg wmsg : String),
    env.channelCtor = .ok ch → env.parseResult = .error msg →
    wenv.channelCtor = .ok wch → wenv.parseResult = .error wmsg →
    ((MCPCVServer.initServer st env).1.isInitialized = true ∧
      (MCPCVServer.initServer st env).1.mcpTools =
        some { cvData := emptyCVRecord, emailService := some ch }) ∧
    ((WebServer.initServer wst wenv).1.isInitialized = true ∧
      (WebServer.initServer wst wenv).1.mcpTools =
        some { cvData := emptyCVRecord, emailService := some wenv.fallbackChannel }) ∧
    (∀ es : Option EmailService,
      (MCPTools.executeTool { cvData := emptyCVRecord, emailService := es }
        "get_work_experience" []).1 = { success := true, data := some (.arr []) }) := by
  intro st wst env wenv ch wch msg wmsg hec hep hwec hwep
  obtain ⟨ec, ep, eprobe⟩ := env
  obtain ⟨wec, wep, weprobe, wfb⟩ := wenv
  simp only at hec hep hwec hwep
  subst hec hep hwec hwep
  exact ⟨⟨rfl, rfl⟩, ⟨rfl, rfl⟩, fun es => rfl⟩

/-- A concrete init environment where the parse step fails. -/
def sampleEnvParseFail : InitEnv :=
  { channelCtor := .ok sampleChannel,
    parseResult := .error "ENOENT: cv.pdf not found",
    probeResult := .ok { success := true } }

/-- A concrete web init environment where the parse step fails. -/
def sampleWebEnvParseFail : WebInitEnv :=
  { channelCtor := .ok sampleChannel,
    parseResult := .error "ENOENT: cv.pdf not found",
    probeResult := .ok { success := true },
    fallbackChannel := sampleChannel }

/-- C3 witness: the degraded-mode property at a concrete failing parse. -/
theorem initFailure_degraded_mode_witness :
    (MCPCVServer.initServer freshMCPServerState sampleEnvParseFail).1.isInitialized = true ∧
    (WebServer.initServer freshWebServerState sampleWebEnvParseFail).1.isInitialized = true ∧
    (MCPTools.executeTool { cvData := emptyCVRecord, emailService := some sampleChannel }
      "get_work_experience" []).1 = { success := true, data := some (.arr []) } := by
  have h := initFailure_degraded_mode freshMCPServerState freshWebServerState
    sampleEnvParseFail sampleWebEnvParseFail sampleChannel sampleChannel
    "ENOENT: cv.pdf not found" "ENOENT: cv.pdf not found" rfl rfl rfl rfl
  exact ⟨h.1.1, h.2.1.1, h.2.2 (some sampleChannel)⟩

/-- C4: the init lifecycle is one-directional and replacing.  Every run of
either init routine ends with `isInitialized = true` and a dispatcher in
place (no code path ever resets the flag, so once set it stays true for the
rest of the process), and the dispatcher installed by a run does not depend
on the previously installed one: re-running the lifecycle fully replaces
it. -/
theorem initServer_one_directional_and_replacing :
    ∀ (st : MCPServerState) (wst : WebServerState) (env : InitEnv) (wenv : WebInitEnv)
      (t : Option MCPTools),
    (MCPCVServer.initServer st env).1.isInitialized = true ∧
    ((MCPCVServer.initServer { st with mcpTools := t } env).1.mcpTools =
      (MCPCVServer.initServer st env).1.mcpTools) ∧
    (∃ d, (MCPCVServer.initServer st env).1.mcpTools = some d) ∧
    (WebServer.initServer wst wenv).1.isInitialized = true ∧
    ((WebServer.initServer { wst with mcpTools := t } wenv).1.mcpTools =
      (WebServer.initServer wst wenv).1.mcpTools) ∧
    (∃ d, (WebServer.initServer wst wenv).1.mcpTools = some d) := by
  intro st wst env wenv t
  obtain ⟨ec, ep, eprobe⟩ := env
  obtain ⟨wec, wep, weprobe, wfb⟩ := wenv
  cases ec <;> cases ep <;> cases eprobe <;> cases wec <;> cases wep <;> cases weprobe <;>
    simp [MCPCVServer.initServer, WebServer.initServer]

/-- A concrete init environment where the channel constructor itself
throws: the first statement of the try block fails, so the catch block
runs with the emailService field still null. -/
def envChannelCtorFails : InitEnv :=
  { channelCtor := .error "channel construction failed",
    parseResult := .error "never reached",
    probeResult := .ok { success := false } }

/-- C5 counterexample: the claim says the dispatcher is never constructed
with null for the NotificationChannel, but when `new EmailService()` throws
during `MCPCVServer.initialize` on a fresh server, the catch block
constructs the fallback dispatcher passing `this.emailService`, which is
still null at that point. -/
theorem fallback_dispatcher_with_null_channel :
    (MCPCVServer.initServer freshMCPServerState envChannelCtorFails).1.mcpTools =
      some { cvData := emptyCVRecord, emailService := none } := rfl

/-- C5 amended: the CVRecord argument is indeed never null on any path
(it is the parsed record or the explicit fallback record), and the channel
argument is non-null on every WebServer path and on every MCPCVServer path
on which channel construction succeeded or a previous lifecycle had
already set the emailService field; but when channel construction itself
throws on a fresh MCPCVServer, the fallback dispatcher is constructed with
the null channel reference. -/
theorem dispatcher_construction_arguments :
    ∀ (st : MCPServerState) (wst : WebServerState) (env : InitEnv) (wenv : WebInitEnv)
      (ch e : EmailService),
    (∃ d, (MCPCVServer.initServer st env).1.mcpTools = some d ∧
      (d.cvData = emptyCVRecord ∨ env.parseResult = .ok d.cvData)) ∧
    (∃ d, (WebServer.initServer wst wenv).1.mcpTools = some d ∧
      (d.cvData = emptyCVRecord ∨ wenv.parseResult = .ok d.cvData)) ∧
    (∃ d, (WebServer.initServer wst wenv).1.mcpTools = some d ∧
      d.emailService.isSome = true) ∧
    (env.channelCtor = .ok ch →
      ∃ d, (MCPCVServer.initServer st env).1.mcpTools = some d ∧
        d.emailService.isSome = true) ∧
    (st.emailService = some e →
      ∃ d, (MCPCVServer.initServer st env).1.mcpTools = some d ∧
        d.emailService.isSome = true) := by
  intro st wst env wenv ch e
  obtain ⟨ec, ep, eprobe⟩ := env
  obtain ⟨wec, wep, weprobe, wfb⟩ := wenv
  refine ⟨?_, ?_, ?_, ?_, ?_⟩
  · cases ec with
    | error m => exact ⟨_, rfl, Or.inl rfl⟩
    | ok c =>
      cases ep with
      | error m => exact ⟨_, rfl, Or.inl rfl⟩
      | ok cv =>
        cases eprobe with
        | error m => exact ⟨_, rfl, Or.inl rfl⟩
        | ok p => exact ⟨_, rfl, Or.inr rfl⟩
  · cases wec with
    | error m => exact ⟨_, rfl, Or.inl rfl⟩
    | ok c =>
      cases wep with
      | error m => exact ⟨_, rfl, Or.inl rfl⟩
      | ok cv =>
        cases weprobe with
        | error m => exact ⟨_, rfl, Or.inl rfl⟩
        | ok p => exact ⟨_, rfl, Or.inr rfl⟩
  · cases wec with
    | error m => exact ⟨_, rfl, rfl⟩
    | ok c =>
      cases wep with
      | error m => exact ⟨_, rfl, rfl⟩
      | ok cv =>
        cases weprobe with
        | error m => exact ⟨_, rfl, rfl⟩
        | ok p => exact ⟨_, rfl, rfl⟩
  · intro hec
    simp only at hec
    subst hec
    cases ep with
    | error m => exact ⟨_, rfl, rfl⟩
    | ok cv =>
      cases eprobe with
      | error m => exact ⟨_, rfl, rfl⟩
      | ok p => exact ⟨_, rfl, rfl⟩
  · intro hes
    cases ec with
    | error m => exact ⟨_, rfl, by simp [hes]⟩
    | ok c =>
      cases ep with
      | error m => exact ⟨_, rfl, rfl⟩
      | ok cv =>
        cases eprobe with
        | error m => exact ⟨_, rfl, rfl⟩
        | ok p => exact ⟨_, rfl, rfl⟩

/-- C5 witness: the amended statement at a concrete environment in which
channel construction succeeded. -/
theorem dispatcher_construction_arguments_witness :
    ∃ d, (MCPCVServer.initServer freshMCPServerState sampleEnvParseFail).1.mcpTools = some d ∧
      d.emailService.isSome = true :=
  (dispatcher_construction_arguments freshMCPServerState freshWebServerState
    sampleEnvParseFail sampleWebEnvParseFail sampleChannel sampleChannel).2.2.2.1 rfl

/-- C6: a connectivity probe that resolves unsuccessfully after a
successful parse does not prevent the transition to initialized and does
not change what is registered: both init routines complete returning true,
with the dispatcher built from the parsed record and the constructed
channel; moreover the final state does not depend on the resolved probe
outcome at all. -/
theorem failed_probe_does_not_block :
    ∀ (st : MCPServerState) (wst : WebServerState) (ch fb : EmailService)
      (cv : CVRecord) (p p2 : ProbeStatus),
    p.success = false →
    (MCPCVServer.initServer st { channelCtor := .ok ch, parseResult := .ok cv, probeResult := .ok p } =
      ({ st with
          emailService := some ch,
          mcpTools := some { cvData := cv, emailService := some ch },
          isInitialized := true }, true)) ∧
    (WebServer.initServer wst
        { channelCtor := .ok ch, parseResult := .ok cv, probeResult := .ok p, fallbackChannel := fb } =
      ({ wst with
          mcpTools := some { cvData := cv, emailService := some ch },
          isInitialized := true }, true)) ∧
    (MCPCVServer.initServer st { channelCtor := .ok ch, parseResult := .ok cv, probeResult := .ok p } =
      MCPCVServer.initServer st { channelCtor := .ok ch, parseResult := .ok cv, probeResult := .ok p2 }) ∧
    (WebServer.initServer wst
        { channelCtor := .ok ch, parseResult := .ok cv, probeResult := .ok p, fallbackChannel := fb } =
      WebServer.initServer wst
        { channelCtor := .ok ch, parseResult := .ok cv, probeResult := .ok p2, fallbackChannel := fb }) := by
  intro st wst ch fb cv p p2 hp
  exact ⟨rfl, rfl, rfl, rfl⟩

/-- C6 witness: a concretely failing probe after a successful parse. -/
theorem failed_probe_does_not_block_witness :
    MCPCVServer.initServer freshMCPServerState
      { channelCtor := .ok sampleChannel, parseResult := .ok sampleCV,
        probeResult := .ok { success := false, error := some "SMTP unreachable" } } =
      ({ freshMCPServerState with
          emailService := some sampleChannel,
          mcpTools := some { cvData := sampleCV, emailService := some sampleChannel },
          isInitialized := true }, true) :=
  (failed_probe_does_not_block freshMCPServerState freshWebServerState sampleChannel
    sampleChannel sampleCV { success := false, error := some "SMTP unreachable" }
    { success := true } rfl).1

/-- C7: omitting any of recipient, subject or body for send_email fails
with InvalidArguments before any side effect — the dispatcher reports the
missing-parameter failure with zero delivery attempts — and the /api/email
route rejects a request with a falsy required field with status 400, zero
delivery attempts, and without executing the tool at all. -/
theorem send_email_missing_params_no_side_effect :
    ∀ (t : MCPTools) (tools : Option MCPTools) (args reqBody : List (String × String)),
    (lookupArg args "recipient" = none ∨ lookupArg args "subject" = none ∨
      lookupArg args "body" = none →
      t.executeTool "send_email" args =
        ({ success := false,
           error := some "Missing required parameters: recipient, subject and body are required" },
         0)) ∧
    (jsTruthy (lookupArg reqBody "recipient") = false ∨
      jsTruthy (lookupArg reqBody "subject") = false ∨
      jsTruthy (lookupArg reqBody "body") = false →
      apiEmailHandler tools reqBody =
        ({ status := 400,
           body := .obj [("error",
             .str "Missing required fields: recipient, subject, and body are required")] },
         0, false)) := by
  intro t tools args reqBody
  constructor
  · intro hmiss
    simp [MCPTools.executeTool, hmiss]
  · intro hmiss
    obtain h | h | h := hmiss <;> simp [apiEmailHandler, h]

/-- C7 witness: a request carrying only the recipient. -/
theorem send_email_missing_params_witness :
    MCPTools.executeTool sampleTools "send_email" [("recipient", "a@b.com")] =
      ({ success := false,
         error := some "Missing required parameters: recipient, subject and body are required" },
       0) ∧
    apiEmailHandler (some sampleTools) [("recipient", "a@b.com")] =
      ({ status := 400,
         body := .obj [("error",
           .str "Missing required fields: recipient, subject, and body are required")] },
       0, false) := by
  have h := send_email_missing_params_no_side_effect sampleTools (some sampleTools)
    [("recipient", "a@b.com")] [("recipient", "a@b.com")]
  exact ⟨h.1 (Or.inr (Or.inl rfl)), h.2 (Or.inr (Or.inl rfl))⟩

/-- C8: for search_cv a query that is empty after trimming fails as
InvalidArguments, while a non-empty query that matches nothing is not an
error: the dispatcher answers success with the empty match sequence. -/
theorem search_cv_empty_and_no_match :
    ∀ (t : MCPTools) (q1 q2 : String),
    jsTrim q1 = "" →
    jsTrim q2 ≠ "" →
    (∀ p ∈ t.cvData.personal, containsCI p.2 (jsTrim q2) = false) →
    (∀ e ∈ t.cvData.experience, containsCI e (jsTrim q2) = false) →
    (∀ e ∈ t.cvData.education, containsCI e (jsTrim q2) = false) →
    (∀ s ∈ t.cvData.skills, containsCI s (jsTrim q2) = false) →
    containsCI t.cvData.rawText (jsTrim q2) = false →
    t.executeTool "search_cv" [("query", q1)] =
      ({ success := false, error := some "Search query cannot be empty" }, 0) ∧
    t.executeTool "search_cv" [("query", q2)] =
      ({ success := true, data := some (.arr []) }, 0) := by
  intro t q1 q2 h1 h2 hp he hed hs hraw
  constructor
  · simp [MCPTools.executeTool, lookupArg, searchCV, h1]
  · have e1 : t.cvData.personal.filter (fun p => containsCI p.2 (jsTrim q2)) = [] :=
      List.filter_eq_nil_iff.mpr (fun a ha => by simp [hp a ha])
    have e2 : t.cvData.experience.filter (fun e => containsCI e (jsTrim q2)) = [] :=
      List.filter_eq_nil_iff.mpr (fun a ha => by simp [he a ha])
    have e3 : t.cvData.education.filter (fun e => containsCI e (jsTrim q2)) = [] :=
      List.filter_eq_nil_iff.mpr (fun a ha => by simp [hed a ha])
    have e4 : t.cvData.skills.filter (fun s => containsCI s (jsTrim q2)) = [] :=
      List.filter_eq_nil_iff.mpr (fun a ha => by simp [hs a ha])
    simp [MCPTools.executeTool, lookupArg, searchCV, h2, e1, e2, e3, e4, hraw]

/-- C8 witness: a whitespace-only query and a query matching nothing in
the sample record. -/
theorem search_cv_empty_and_no_match_witness :
    MCPTools.executeTool sampleTools "search_cv" [("query", "   ")] =
      ({ success := false, error := some "Search query cannot be empty" }, 0) ∧
    MCPTools.executeTool sampleTools "search_cv" [("query", "quantum")] =
      ({ success := true, data := some (.arr []) }, 0) :=
  search_cv_empty_and_no_match sampleTools "   " "quantum" (by decide) (by decide)
    (by decide) (by decide) (by decide) (by decide) (by decide)

/-- C9: at POST /api/mcp, when the dispatcher result has neither a defined
data field with success nor an error field, the handler answers 200 with
the entire raw result wrapped as the data payload. -/
theorem apiMcp_wraps_raw_result :
    ∀ (r : ToolResult) (n now : String),
    jsTruthy (some n) = true →
    (r.success && r.data.isSome) = false →
    r.error = none →
    apiMcpHandler true true (some n) (.ok r) now =
      { status := 200,
        body := .obj [("success", .bool true), ("data", encodeToolResult r),
          ("tool", .str n), ("timestamp", .str now)] } := by
  intro r n now htn hf he
  have h2 : jsTruthy (none : Option String) = false := rfl
  simp [apiMcpHandler, htn, hf, he, h2]

/-- C9 witness: a result with success but undefined data. -/
theorem apiMcp_wraps_raw_result_witness :
    jsTruthy (some "get_skills") = true ∧
    apiMcpHandler true true (some "get_skills") (.ok { success := true }) "T" =
      { status := 200,
        body := .obj [("success", .bool true),
          ("data", encodeToolResult { success := true }),
          ("tool", .str "get_skills"), ("timestamp", .str "T")] } :=
  ⟨by decide,
    apiMcp_wraps_raw_result { success := true } "get_skills" "T" (by decide) (by decide) rfl⟩

/-- C10: a convenience endpoint requested while the dispatcher is still
null dereferences it inside the try block; the caught exception yields a
500 response with an error message, unlike the initialization-gated routes
which answer 503. -/
theorem uninitialized_convenience_routes_500 :
    ∀ (reqBody emailBody : List (String × String)) (b : Bool) (now : String),
    jsTruthy (lookupArg reqBody "query") = true →
    jsTruthy (lookupArg emailBody "recipient") = true →
    jsTruthy (lookupArg emailBody "subject") = true →
    jsTruthy (lookupArg emailBody "body") = true →
    (apiConvenienceHandler none "get_personal_info" =
      { status := 500, body := .obj [("error", .str nullDerefMsg)] }) ∧
    (apiConvenienceHandler none "get_work_experience" =
      { status := 500, body := .obj [("error", .str nullDerefMsg)] }) ∧
    (apiConvenienceHandler none "get_education" =
      { status := 500, body := .obj [("error", .str nullDerefMsg)] }) ∧
    (apiConvenienceHandler none "get_skills" =
      { status := 500, body := .obj [("error", .str nullDerefMsg)] }) ∧
    (apiSearchHandler none reqBody =
      { status := 500, body := .obj [("error", .str nullDerefMsg)] }) ∧
    (apiEmailHandler none emailBody =
      ({ status := 500, body := .obj [("error", .str nullDerefMsg)] }, 0, false)) ∧
    ((apiToolsListHandler false b now).status = 503) ∧
    ((apiMcpHandler false b (some "get_skills") (.ok { success := true }) now).status = 503) ∧
    ((apiToolsNameHandler false b "get_skills" (.ok { success := true }) now).status = 503) := by
  intro reqBody emailBody b now hq hr hs hb
  refine ⟨rfl, rfl, rfl, rfl, ?_, ?_, ?_, ?_, ?_⟩
  · simp [apiSearchHandler, hq]
  · simp [apiEmailHandler, hr, hs, hb]
  · simp [apiToolsListHandler]
  · simp [apiMcpHandler, jsTruthy]
  · simp [apiToolsNameHandler]

/-- C10 witness: concrete valid request bodies against the null
dispatcher. -/
theorem uninitialized_convenience_routes_500_witness :
    (apiConvenienceHandler none "get_personal_info" =
      { status := 500, body := .obj [("error", .str nullDerefMsg)] }) ∧
    (apiSearchHandler none [("query", "rust")] =
      { status := 500, body := .obj [("error", .str nullDerefMsg)] }) ∧
    (apiEmailHandler none [("recipient", "a@b.com"), ("subject", "Hi"), ("body", "x")] =
      ({ status := 500, body := .obj [("error", .str nullDerefMsg)] }, 0, false)) ∧
    ((apiMcpHandler false false (some "get_skills") (.ok { success := true }) "T").status = 503) := by
  have h := uninitialized_convenience_routes_500 [("query", "rust")]
    [("recipient", "a@b.com"), ("subject", "Hi"), ("body", "x")] false "T"
    (by decide) (by decide) (by decide) (by decide)
  exact ⟨h.1, h.2.2.2.2.1, h.2.2.2.2.2.1, h.2.2.2.2.2.2.2.1⟩
